import Mathlib

/-!
Shallow embedding of the multi-region generation client of `app-review-st`
(`src/gemini_client.py`, plus the `is_truncated` computation of `app.py` /
`src/analysis_tab.py`), together with theorems settling the frozen claims
about it.

Modelling conventions:
* Python strings are `String`; Python `None` and absence are `Option`.
* The Vertex AI `FinishReason` enum and the string codes the client also
  accepts are folded into one type `FinishReasonValue`; Python `None`
  (used when a response has no candidates) is its `noneV` constructor.
* Floating point generation options (temperature 0.3, top_p 0.95) are
  represented in hundredths (`temperature_x100`, `top_p_x100`); no claim
  depends on float arithmetic, only on which option bundle is passed.
* The backend SDK (region binding + model invocation) is an oracle
  `Nat → String → RegionOutcome` (attempt number → region → outcome), and
  every externally visible step is recorded in an event trace
  (`Event.bind`, `Event.invoke`, `Event.sleep`).
* The `tenacity` decorator `@retry(wait=wait_exponential(multiplier=1,
  min=2, max=10), stop=stop_after_attempt(3))` is embedded by `retry_go`:
  with no `retry=` argument tenacity retries every `Exception`, and with
  the default `reraise=False` it raises `RetryError` (whose `__cause__` is
  the last attempt's exception) once the stop condition is met.
-/

/-! ## String helpers (Python `str.lower` and substring containment) -/

/-- Embedding of Python `str.lower()` restricted to the ASCII strings the
client manipulates: lower-case every character. -/
def strLower (s : String) : String :=
  String.mk (s.toList.map Char.toLower)

/-- `charsStartsWith needle hay` is true when `needle` is an initial
segment of `hay`. -/
def charsStartsWith : List Char → List Char → Bool
  | [], _ => true
  | _ :: _, [] => false
  | a :: as, b :: bs => if a = b then charsStartsWith as bs else false

/-- `charsHasSub needle hay` is true when `needle` occurs contiguously
inside `hay`. -/
def charsHasSub (needle : List Char) : List Char → Bool
  | [] => charsStartsWith needle []
  | h :: t => charsStartsWith needle (h :: t) || charsHasSub needle t

/-- Embedding of Python `needle in hay` on strings. -/
def strHasSub (hay needle : String) : Bool :=
  charsHasSub needle.toList hay.toList

/-! ## Finish reasons (`gemini_client.py` lines 115-153) -/

/-- The members of `vertexai.generative_models.FinishReason` the code can
receive.  The first six appear in the client's `reason_map`; the last four
are further members of the SDK enum, exercising the fallback path. -/
inductive FREnum where
  | unspecified
  | stop
  | maxTokens
  | safety
  | recitation
  | other
  | blocklist
  | prohibitedContent
  | spii
  | malformedFunctionCall
deriving DecidableEq, Repr

/-- Python value of a candidate's `finish_reason` as the client handles it:
an SDK enum member, a raw string code (older API versions), or `None`
(set by `generate_content` when the response has no candidates). -/
inductive FinishReasonValue where
  | enum (e : FREnum)
  | str (s : String)
  | noneV
deriving DecidableEq, Repr

/-- Embedding of Python `str(...)` on the values `get_finish_reason_description`
may stringify: `str(None) = "None"`, enum members print qualified. -/
def pyStrFR : FinishReasonValue → String
  | .enum .unspecified => "FinishReason.FINISH_REASON_UNSPECIFIED"
  | .enum .stop => "FinishReason.STOP"
  | .enum .maxTokens => "FinishReason.MAX_TOKENS"
  | .enum .safety => "FinishReason.SAFETY"
  | .enum .recitation => "FinishReason.RECITATION"
  | .enum .other => "FinishReason.OTHER"
  | .enum .blocklist => "FinishReason.BLOCKLIST"
  | .enum .prohibitedContent => "FinishReason.PROHIBITED_CONTENT"
  | .enum .spii => "FinishReason.SPII"
  | .enum .malformedFunctionCall => "FinishReason.MALFORMED_FUNCTION_CALL"
  | .str s => s
  | .noneV => "None"

/-- Transcription of the `reason_map` dict of
`get_finish_reason_description` (lines 125-142): six enum-keyed entries
followed by the numeric string fallbacks `"0"`-`"8"`. -/
def reason_map : List (FinishReasonValue × String) :=
  [ (.enum .unspecified, "The finish reason is unspecified"),
    (.enum .stop, "The model completed normally"),
    (.enum .maxTokens, "The model reached the token limit"),
    (.enum .safety, "Content filtered for safety reasons"),
    (.enum .recitation, "Potential recitation detected"),
    (.enum .other, "Other stopping reason"),
    (.str "0", "The finish reason is unspecified"),
    (.str "1", "The model reached the token limit"),
    (.str "2", "Content filtered for safety reasons"),
    (.str "3", "Potential recitation detected"),
    (.str "4", "Other stopping reason"),
    (.str "5", "Content contains blocked terms"),
    (.str "6", "Content contains prohibited material"),
    (.str "7", "Sensitive Personal Identifiable Information detected"),
    (.str "8", "Invalid function call format") ]

/-- Python dict lookup over the association list transcription. -/
def assocLookup (k : FinishReasonValue) : List (FinishReasonValue × String) → Option String
  | [] => none
  | (k2, v) :: rest => if k = k2 then some v else assocLookup k rest

/-- Embedding of `GeminiRegionClient.get_finish_reason_description`
(lines 115-153).  For a string code: return the mapped description when the
string is a key of `reason_map` (the source's second `isdigit` test repeats
the same membership check and is subsumed), else the string itself.  For
any other value: `reason_map.get(finish_reason, str(finish_reason))`. -/
def get_finish_reason_description (finish_reason : FinishReasonValue) : String :=
  match finish_reason with
  | .str s =>
    match assocLookup (.str s) reason_map with
    | some d => d
    | none => s
  | .enum e =>
    match assocLookup (.enum e) reason_map with
    | some d => d
    | none => pyStrFR (.enum e)
  | .noneV =>
    match assocLookup .noneV reason_map with
    | some d => d
    | none => pyStrFR .noneV

/-! ## Truncation predicate (`app.py` lines 669-677, `analysis_tab.py`
lines 744-751) -/

/-- Token-usage counts extracted from `response.usage_metadata`. -/
structure TokenCount where
  prompt : Nat
  candidates : Nat
  total : Nat
deriving DecidableEq, Repr

/-- One entry of a candidate's `safety_ratings`. -/
structure SafetyRating where
  category : String
  probability : String
  blocked : Bool
deriving DecidableEq, Repr

/-- A response candidate as exposed by the SDK (`index`, `finish_reason`,
`finish_message`, optional `safety_ratings`; an absent ratings attribute is
the empty list). -/
structure Candidate where
  index : Nat
  finish_reason : FinishReasonValue
  finish_message : String
  safety_ratings : List SafetyRating
deriving DecidableEq, Repr

/-- Structured metadata built by `extract_response_metadata` (lines 82-113). -/
structure ResponseMetadata where
  token_count : TokenCount
  candidates : List Candidate
deriving DecidableEq, Repr

/-- Embedding of the truncation check shared by `app.py` (lines 669-677)
and `analysis_tab.py` (lines 744-751):
`is_truncated = False`; if `finish_reason` is truthy (non-empty) then
`"completed normally" not in finish_reason.lower()`; otherwise, when the
metadata dict is present with a non-empty candidate list, compare the raw
candidate code against the Python string `"STOP"`; else stay `False`. -/
def is_truncated_calc (finish_reason : String)
    (response_metadata : Option ResponseMetadata) : Bool :=
  if finish_reason = "" then
    match response_metadata with
    | some md =>
      match md.candidates with
      | cand :: _ => decide (cand.finish_reason ≠ FinishReasonValue.str "STOP")
      | [] => false
    | none => false
  else
    ! strHasSub (strLower finish_reason) "completed normally"

/-! ## Client state (`GeminiRegionClient.__init__`, lines 34-74) -/

/-- Generation options bundle (`vertexai.generative_models.GenerationConfig`).
The two float fields are stored in hundredths: the source's `temperature=0.3`
is `temperature_x100 = 30` and `top_p=0.95` is `top_p_x100 = 95`. -/
structure GenerationConfig where
  max_output_tokens : Option Nat := none
  temperature_x100 : Option Nat := none
  top_p_x100 : Option Nat := none
  response_mime_type : Option String := none
deriving DecidableEq, Repr

/-- The default options built in `__init__` (lines 66-70). -/
def default_generation_config : GenerationConfig :=
  { max_output_tokens := some 8192
    temperature_x100 := some 30
    top_p_x100 := some 95
    response_mime_type := none }

/-- The caller's `**kwargs` dict.  The only key `generate_content` reads is
`'generation_config'`; every other entry is forwarded to the model
untouched and is kept opaque here. -/
structure KwArgs where
  generation_config : Option GenerationConfig := none
  extra : List (String × String) := []
deriving DecidableEq, Repr

/-- The client state built by `__init__`: tenant id, the fixed region
list, the permissive safety settings (four harm categories all mapped to
`BLOCK_NONE`), and the default generation options. -/
structure Client where
  project_id : String
  regions : List String
  safety_settings : List (String × String)
  default_generation_config : GenerationConfig
deriving DecidableEq, Repr

/-- The fixed, ordered fallback region list (lines 48-57). -/
def gemini_regions : List String :=
  [ "us-east5",
    "northamerica-northeast1",
    "europe-west2",
    "europe-west3",
    "asia-northeast1",
    "asia-south1",
    "southamerica-east1",
    "australia-southeast1" ]

/-- The safety-filter configuration of `__init__` (lines 59-64). -/
def gemini_safety_settings : List (String × String) :=
  [ ("HARM_CATEGORY_HATE_SPEECH", "BLOCK_NONE"),
    ("HARM_CATEGORY_DANGEROUS_CONTENT", "BLOCK_NONE"),
    ("HARM_CATEGORY_SEXUALLY_EXPLICIT", "BLOCK_NONE"),
    ("HARM_CATEGORY_HARASSMENT", "BLOCK_NONE") ]

/-- Client value for a resolved, truthy project id. -/
def mkGeminiClient (project_id : String) : Client :=
  { project_id := project_id
    regions := gemini_regions
    safety_settings := gemini_safety_settings
    default_generation_config := default_generation_config }

/-! ## Exceptions and backend oracle -/

/-- The Python exceptions this code raises or handles.
`allRegionsFailed` is `Exception(f"All regions failed. Last error: ...")`
raised `from last_error` (line 294); `allRegionsFailedNoCause` is the
same raise when `last_error` is still `None` (reachable only with an
empty region list); `retryError` is tenacity's `RetryError`, whose
`__cause__` tenacity sets to the final attempt's exception
(`raise retry_exc from fut.exception()`, `reraise=False`). -/
inductive PyException where
  | valueError (message : String)
  | resourceExhausted (message : String)
  | generic (message : String)
  | allRegionsFailed (message : String) (cause : PyException)
  | allRegionsFailedNoCause (message : String)
  | retryError (lastAttemptError : PyException)
deriving DecidableEq, Repr

/-- Embedding of Python `str(e)` for the exceptions whose text the code
interpolates.  Tenacity's `RetryError` prints its wrapped future, whose
repr names only the exception type; no theorem relies on that string. -/
def pyStrExc : PyException → String
  | .valueError m => m
  | .resourceExhausted m => m
  | .generic m => m
  | .allRegionsFailed m _ => m
  | .allRegionsFailedNoCause m => m
  | .retryError _ => "RetryError"

/-- Python `str(last_error)` where `last_error` may still be `None`. -/
def pyStrExcOpt : Option PyException → String
  | none => "None"
  | some e => pyStrExc e

/-- The `__cause__` of an exception, where the code sets one. -/
def pyCause : PyException → Option PyException
  | .allRegionsFailed _ c => some c
  | .retryError e => some e
  | _ => none

/-- A provider response as `generate_content` consumes it: `.text`,
`.usage_metadata` and `.candidates`. -/
structure Response where
  text : String
  usage : TokenCount
  candidates : List Candidate
deriving DecidableEq, Repr

/-- Outcome of one region attempt as delivered by the backend SDK:
a successful `ProviderResponse`, a `ResourceExhausted` throttling error
(handled at line 266), or any other exception (handled at line 276). -/
inductive RegionOutcome where
  | success (resp : Response)
  | throttled (message : String)
  | failed (message : String)
deriving DecidableEq, Repr

/-- True when the outcome enters one of the two `except` arms. -/
def RegionOutcome.isFailure : RegionOutcome → Bool
  | .success _ => false
  | .throttled _ => true
  | .failed _ => true

/-- The exception object bound to `last_error` for a failing outcome
(`ResourceExhausted` at line 275, the generic handler at line 284). -/
def RegionOutcome.errOf : RegionOutcome → PyException
  | .throttled m => .resourceExhausted m
  | .failed m => .generic m
  | .success _ => .generic ""

/-! ## Results of `generate_content` -/

/-- The dict returned when `return_full_response=True` (lines 256-262). -/
structure GenResult where
  text : String
  finish_reason : String
  finish_reason_raw : FinishReasonValue
  metadata : ResponseMetadata
deriving DecidableEq, Repr

/-- The two return shapes of `generate_content`: plain text or the full
structured dict. -/
inductive PyResult where
  | text (s : String)
  | full (r : GenResult)
deriving DecidableEq, Repr

/-- Embedding of `extract_response_metadata` (lines 82-113): token counts
plus the per-candidate entries (index, finish reason/message, safety
ratings when present). -/
def extract_response_metadata (resp : Response) : ResponseMetadata :=
  { token_count := resp.usage
    candidates := resp.candidates }

/-- The success path of `generate_content` for `return_full_response=True`
(lines 217-262): extract metadata, take the first candidate's finish
reason (or `None` when there is no candidate), normalize it, and package
the result dict. -/
def buildFullResult (resp : Response) : GenResult :=
  let md := extract_response_metadata resp
  let raw := match md.candidates with
    | [] => FinishReasonValue.noneV
    | cand :: _ => cand.finish_reason
  { text := resp.text
    finish_reason := get_finish_reason_description raw
    finish_reason_raw := raw
    metadata := md }

/-- What the success path returns for each `return_full_response` flag
(lines 255-264). -/
def mkOutput (return_full_response : Bool) (resp : Response) : PyResult :=
  if return_full_response then .full (buildFullResult resp) else .text resp.text

/-! ## Traces and the region sweep (lines 170-294) -/

/-- Externally visible steps of a call: `Event.bind` is
`vertexai.init(project=..., location=region)`, `Event.invoke` is
`model.generate_content(...)` with the generation options actually passed
for that region, and `Event.sleep` is the backoff pause tenacity inserts
between whole-sweep attempts. -/
inductive Event where
  | bind (region : String)
  | invoke (region : String) (cfg : GenerationConfig)
  | sleep (seconds : Nat)
deriving DecidableEq, Repr

/-- Regions bound, in order. -/
def bindsOf (tr : List Event) : List String :=
  tr.filterMap fun e => match e with
    | .bind r => some r
    | _ => none

/-- Model invocations with the options passed, in order. -/
def invokesOf (tr : List Event) : List (String × GenerationConfig) :=
  tr.filterMap fun e => match e with
    | .invoke r cfg => some (r, cfg)
    | _ => none

/-- Backoff pauses, in order. -/
def sleepsOf (tr : List Event) : List Nat :=
  tr.filterMap fun e => match e with
    | .sleep n => some n
    | _ => none

/-- Number of model invocation attempts in a trace. -/
def countInvokes (tr : List Event) : Nat :=
  (invokesOf tr).length

/-- `model_kwargs.pop('generation_config', self.default_generation_config)`
(line 189): returns the caller's config and removes the key when present,
else the default, leaving the dict as is.  The dict this runs on is the
per-call copy, never the caller's own dict. -/
def popGenConfig (mk : KwArgs) (dflt : GenerationConfig) : GenerationConfig × KwArgs :=
  match mk.generation_config with
  | some g => (g, { mk with generation_config := none })
  | none => (dflt, mk)

/-- Lines 190-194: when a response MIME type is forced, rebuild the config
from the merged one with `response_mime_type` layered on. -/
def layerMime (cfg : GenerationConfig) (mime : Option String) : GenerationConfig :=
  match mime with
  | some m => { cfg with response_mime_type := some m }
  | none => cfg

/-- Result of one pass of the `for region in self.regions` loop. -/
structure SweepResult where
  trace : List Event
  model_kwargs : KwArgs
  last_error : Option PyException
  success : Option PyResult
deriving DecidableEq, Repr

/-- The region loop of `generate_content` (lines 184-284).  For each
region in order: bind the SDK to the region, pop the caller's generation
config from the kwargs copy (falling back to the default), layer the
forced MIME type, invoke the model; on success return immediately, on
`ResourceExhausted` or any other exception record `last_error` and move to
the next region.  The prompt-normalization of lines 196-200 touches only
the prompt value and is orthogonal to every claim, so the prompt is not
modelled.  The per-region logging calls are assumed not to raise. -/
def sweepLoop (c : Client) (backend : String → RegionOutcome)
    (mime : Option String) (full : Bool) :
    List String → KwArgs → Option PyException → SweepResult
  | [], mk, le => ⟨[], mk, le, none⟩
  | region :: rest, mk, le =>
    let pc := popGenConfig mk c.default_generation_config
    let cfg := layerMime pc.1 mime
    match backend region with
    | .success resp =>
      ⟨[Event.bind region, Event.invoke region cfg], pc.2, le,
        some (mkOutput full resp)⟩
    | .throttled m =>
      let r2 := sweepLoop c backend mime full rest pc.2 (some (.resourceExhausted m))
      ⟨Event.bind region :: Event.invoke region cfg :: r2.trace,
        r2.model_kwargs, r2.last_error, r2.success⟩
    | .failed m =>
      let r2 := sweepLoop c backend mime full rest pc.2 (some (.generic m))
      ⟨Event.bind region :: Event.invoke region cfg :: r2.trace,
        r2.model_kwargs, r2.last_error, r2.success⟩

/-- Terminal state of one undecorated call body. -/
inductive PyOutcome where
  | ok (r : PyResult)
  | raised (e : PyException)
deriving DecidableEq, Repr

/-- Result of one attempt of the decorated function body. -/
structure BodyResult where
  trace : List Event
  caller_kwargs : KwArgs
  outcome : PyOutcome
deriving DecidableEq, Repr

/-- One execution of the body of `generate_content` (one sweep).
`log_sink_raises` models the logging-sink collaborator: the pre-loop
`self.app_logger.log_api_call(...)` (lines 174-179) runs before region
iteration, and an exception it raises propagates out of the body; when it
is `some m` the body raises `generic m` before any region is bound.
Line 182 (`model_kwargs = kwargs.copy()`) is the value copy handed to
`sweepLoop`; the caller's dict is returned untouched in `caller_kwargs`.
When every region fails, line 294 raises
`Exception(f"All regions failed. Last error: {str(last_error)}")`
`from last_error`. -/
def generate_content_body (c : Client) (backend : String → RegionOutcome)
    (log_sink_raises : Option String) (kwargs : KwArgs)
    (mime : Option String) (full : Bool) : BodyResult :=
  match log_sink_raises with
  | some m => ⟨[], kwargs, .raised (.generic m)⟩
  | none =>
    let model_kwargs := kwargs
    let s := sweepLoop c backend mime full c.regions model_kwargs none
    match s.success with
    | some r => ⟨s.trace, kwargs, .ok r⟩
    | none =>
      match s.last_error with
      | some e =>
        ⟨s.trace, kwargs,
          .raised (.allRegionsFailed
            ("All regions failed. Last error: " ++ pyStrExc e) e)⟩
      | none =>
        ⟨s.trace, kwargs,
          .raised (.allRegionsFailedNoCause
            ("All regions failed. Last error: " ++ pyStrExcOpt none))⟩

/-- Tenacity's `wait_exponential(multiplier, min, max)` value after the
given (1-based) failed attempt:
`max(min, min(multiplier * 2 ** attempt_number, max))`. -/
def wait_exponential_val (multiplier minW maxW attempt : Nat) : Nat :=
  Nat.max minW (Nat.min (multiplier * 2 ^ attempt) maxW)

/-- The retry predicate of the decorator at line 155: `@retry` is given no
`retry=` argument, so tenacity retries every `Exception`. -/
def tenacity_retry_on (_e : PyException) : Bool :=
  true

/-- Observable result of a whole decorated call. -/
structure CallResult where
  trace : List Event
  attempts : Nat
  caller_kwargs : KwArgs
  result : PyOutcome
deriving DecidableEq, Repr

/-- Tenacity's retry driver for the decorator at lines 155-156.
`attempt` is the 1-based attempt number; `remaining` is how many further
attempts `stop_after_attempt` still allows.  After a failed attempt the
retry predicate is consulted first (an exception it rejects propagates
unchanged); then, if the stop condition is met, tenacity raises
`RetryError` with the last attempt's exception as its cause; otherwise it
sleeps `wait_exponential` and re-runs the body. -/
def retry_go (shouldRetry : PyException → Bool) (body : Nat → BodyResult) :
    Nat → Nat → CallResult
  | attempt, 0 =>
    let b := body attempt
    match b.outcome with
    | .ok r => ⟨b.trace, 1, b.caller_kwargs, .ok r⟩
    | .raised e =>
      if shouldRetry e then
        ⟨b.trace, 1, b.caller_kwargs, .raised (.retryError e)⟩
      else
        ⟨b.trace, 1, b.caller_kwargs, .raised e⟩
  | attempt, remaining + 1 =>
    let b := body attempt
    match b.outcome with
    | .ok r => ⟨b.trace, 1, b.caller_kwargs, .ok r⟩
    | .raised e =>
      if shouldRetry e then
        let w := wait_exponential_val 1 2 10 attempt
        let r2 := retry_go shouldRetry body (attempt + 1) remaining
        ⟨b.trace ++ Event.sleep w :: r2.trace, r2.attempts + 1,
          r2.caller_kwargs, r2.result⟩
      else
        ⟨b.trace, 1, b.caller_kwargs, .raised e⟩

/-- The decorated `GeminiRegionClient.generate_content` (lines 155-294):
`stop_after_attempt(3)` means attempt 1 plus at most 2 retries, with
`wait_exponential(multiplier=1, min=2, max=10)` pauses in between.  The
backend oracle may depend on the attempt number so that distinct sweeps
can observe distinct region behavior.  `genBody` is the function the
decorator re-drives: attempt number `n` runs one sweep against the
backend behavior of attempt `n`. -/
def genBody (c : Client) (backend : Nat → String → RegionOutcome)
    (log_sink_raises : Option String) (kwargs : KwArgs)
    (response_mime_type : Option String) (return_full_response : Bool) :
    Nat → BodyResult :=
  fun attempt =>
    generate_content_body c (backend attempt) log_sink_raises kwargs
      response_mime_type return_full_response

/-- The decorated call: three attempts in total. -/
def generate_content (c : Client) (backend : Nat → String → RegionOutcome)
    (log_sink_raises : Option String) (kwargs : KwArgs)
    (response_mime_type : Option String) (return_full_response : Bool) :
    CallResult :=
  retry_go tenacity_retry_on
    (genBody c backend log_sink_raises kwargs response_mime_type return_full_response)
    1 2

/-! ## Construction (`__init__`, lines 34-37) -/

/-- Python truthiness for an optional string: `None` and `""` are falsy. -/
def pyTruthyOpt : Option String → Option String
  | none => none
  | some s => if s = "" then none else some s

/-- Terminal state of `__init__`. -/
inductive InitOutcome where
  | ok (c : Client)
  | raised (e : PyException)
deriving DecidableEq, Repr

/-- Embedding of `GeminiRegionClient.__init__(project_id=None)` against an
environment value for `GCP_PROJECT`:
`self.project_id = project_id or os.environ.get("GCP_PROJECT")`, then
`raise ValueError(...)` when the result is falsy.  The returned event list
records any backend binding performed during construction: there is none,
construction performs no network activity. -/
def GeminiRegionClient_init (project_id : Option String)
    (env_gcp_project : Option String) : List Event × InitOutcome :=
  let assigned : Option String :=
    match pyTruthyOpt project_id with
    | some s => some s
    | none => env_gcp_project
  match pyTruthyOpt assigned with
  | none =>
    ([], .raised (.valueError
      "Project ID must be provided or set in GCP_PROJECT environment variable"))
  | some p => ([], .ok (mkGeminiClient p))

/-! ## Remaining definitions: list helper and concrete fixtures -/

/-- Last element of a non-empty region list (the region whose error a
fully failed sweep reports); the empty list gives the empty string. -/
def lastOf : List String → String
  | [] => ""
  | [r] => r
  | _ :: x :: xs => lastOf (x :: xs)

/-- Entry of `reason_map` keyed by an SDK enum member. -/
def isEnumKeyed (p : FinishReasonValue × String) : Bool :=
  match p.1 with
  | .enum _ => true
  | _ => false

/-- Entry of `reason_map` keyed by a string code. -/
def isStrKeyed (p : FinishReasonValue × String) : Bool :=
  match p.1 with
  | .str _ => true
  | _ => false

/-- Sample successful provider response (first candidate stopped
normally), used by concrete witnesses. -/
def respStop : Response :=
  { text := "positive sentiment"
    usage := { prompt := 3, candidates := 5, total := 8 }
    candidates :=
      [{ index := 0, finish_reason := .enum .stop, finish_message := "",
         safety_ratings := [] }] }

/-- Provider response whose first candidate carries the raw empty-string
finish code (the defensive string branch of the normalizer passes it
through unchanged). -/
def respEmptyReason : Response :=
  { text := "ok"
    usage := { prompt := 1, candidates := 2, total := 3 }
    candidates :=
      [{ index := 0, finish_reason := .str "", finish_message := "",
         safety_ratings := [] }] }

/-- Empty caller kwargs. -/
def emptyKw : KwArgs := {}

/-- Backend behavior: first region throttled, every other region
succeeds with `respStop`. -/
def throttleFirstBackend : Nat → String → RegionOutcome :=
  fun _ region =>
    if region = "us-east5" then .throttled "quota exceeded"
    else .success respStop

/-- Backend behavior: every region of every sweep raises a generic
exception with message `"boom"`. -/
def allFailBackend : Nat → String → RegionOutcome :=
  fun _ _ => .failed "boom"

/-- A caller-supplied generation config distinct from the client default. -/
def callerConfig : GenerationConfig :=
  { max_output_tokens := some 100
    temperature_x100 := some 50
    top_p_x100 := some 80
    response_mime_type := none }

/-- Caller kwargs carrying `generation_config := callerConfig`. -/
def callerKw : KwArgs := { generation_config := some callerConfig, extra := [] }

/-! ## Helper lemmas: strings -/

theorem charsStartsWith_refl (l : List Char) : charsStartsWith l l = true := by
  induction l with
  | nil => rfl
  | cons a as ih => simp [charsStartsWith, ih]

theorem charsHasSub_self (l : List Char) : charsHasSub l l = true := by
  cases l with
  | nil => rfl
  | cons h t => simp [charsHasSub, charsStartsWith_refl]

theorem charsHasSub_append_left (a b : List Char) :
    charsHasSub b (a ++ b) = true := by
  induction a with
  | nil => simpa using charsHasSub_self b
  | cons x xs ih => simp [charsHasSub, ih]

/-- A string always contains a suffix appended to any other string. -/
theorem strHasSub_append (a b : String) : strHasSub (a ++ b) b = true := by
  unfold strHasSub
  have h : (a ++ b).toList = a.toList ++ b.toList := by
    simp [String.toList]
  rw [h]
  exact charsHasSub_append_left a.toList b.toList

/-! ## Helper lemmas: finish reasons -/

theorem assocLookup_mem_values (k : FinishReasonValue)
    (m : List (FinishReasonValue × String)) (v : String)
    (h : assocLookup k m = some v) : v ∈ m.map Prod.snd := by
  induction m with
  | nil => simp [assocLookup] at h
  | cons p rest ih =>
    by_cases hk : k = p.1
    · simp [assocLookup, hk] at h
      simp [h.symm]
    · simp only [assocLookup] at h
      rw [if_neg hk] at h
      simp [ih h]

/-- Every description stored in the table is non-empty. -/
theorem reason_map_values_nonempty :
    ∀ v ∈ reason_map.map Prod.snd, v ≠ "" := by decide

/-- The normalized description is non-empty for every finish value other
than the raw empty-string code (which the fallback passes through). -/
theorem get_finish_reason_description_ne_empty (fr : FinishReasonValue)
    (h : fr ≠ FinishReasonValue.str "") :
    get_finish_reason_description fr ≠ "" := by
  match fr with
  | .enum e => cases e <;> decide
  | .noneV => decide
  | .str s =>
    have hs : s ≠ "" := by
      intro hs
      exact h (by rw [hs])
    simp only [get_finish_reason_description]
    cases hlook : assocLookup (.str s) reason_map with
    | none => simpa using hs
    | some d =>
      have hv := assocLookup_mem_values _ _ _ hlook
      simpa using reason_map_values_nonempty d hv

/-! ## Helper lemmas: trace projections and sweep unfoldings -/

theorem bindsOf_cons2 (x : String) (cfg : GenerationConfig) (tr : List Event) :
    bindsOf (Event.bind x :: Event.invoke x cfg :: tr) = x :: bindsOf tr := by
  simp [bindsOf]

theorem countInvokes_cons2 (x : String) (cfg : GenerationConfig) (tr : List Event) :
    countInvokes (Event.bind x :: Event.invoke x cfg :: tr) = countInvokes tr + 1 := by
  simp [countInvokes, invokesOf]

theorem sleepsOf_cons2 (x : String) (cfg : GenerationConfig) (tr : List Event) :
    sleepsOf (Event.bind x :: Event.invoke x cfg :: tr) = sleepsOf tr := by
  simp [sleepsOf]

theorem countInvokes_append (a b : List Event) :
    countInvokes (a ++ b) = countInvokes a + countInvokes b := by
  simp [countInvokes, invokesOf]

theorem countInvokes_sleep_cons (w : Nat) (tr : List Event) :
    countInvokes (Event.sleep w :: tr) = countInvokes tr := by
  simp [countInvokes, invokesOf]

theorem sleepsOf_append (a b : List Event) :
    sleepsOf (a ++ b) = sleepsOf a ++ sleepsOf b := by
  simp [sleepsOf]

theorem sleepsOf_sleep_cons (w : Nat) (tr : List Event) :
    sleepsOf (Event.sleep w :: tr) = w :: sleepsOf tr := by
  simp [sleepsOf]

/-- Unfolding of the sweep on a region that succeeds. -/
theorem sweepLoop_cons_success (c : Client) (backend : String → RegionOutcome)
    (mime : Option String) (full : Bool) (x : String) (rest : List String)
    (mk : KwArgs) (le : Option PyException) (resp : Response)
    (hbx : backend x = RegionOutcome.success resp) :
    sweepLoop c backend mime full (x :: rest) mk le
      = ⟨[Event.bind x,
          Event.invoke x (layerMime (popGenConfig mk c.default_generation_config).1 mime)],
         (popGenConfig mk c.default_generation_config).2, le,
         some (mkOutput full resp)⟩ := by
  simp [sweepLoop, hbx]

/-- Unfolding of the sweep on a region that throttles. -/
theorem sweepLoop_cons_throttled (c : Client) (backend : String → RegionOutcome)
    (mime : Option String) (full : Bool) (x : String) (rest : List String)
    (mk : KwArgs) (le : Option PyException) (m : String)
    (hbx : backend x = RegionOutcome.throttled m) :
    sweepLoop c backend mime full (x :: rest) mk le
      = ⟨Event.bind x
          :: Event.invoke x (layerMime (popGenConfig mk c.default_generation_config).1 mime)
          :: (sweepLoop c backend mime full rest
                (popGenConfig mk c.default_generation_config).2
                (some (.resourceExhausted m))).trace,
         (sweepLoop c backend mime full rest
            (popGenConfig mk c.default_generation_config).2
            (some (.resourceExhausted m))).model_kwargs,
         (sweepLoop c backend mime full rest
            (popGenConfig mk c.default_generation_config).2
            (some (.resourceExhausted m))).last_error,
         (sweepLoop c backend mime full rest
            (popGenConfig mk c.default_generation_config).2
            (some (.resourceExhausted m))).success⟩ := by
  simp [sweepLoop, hbx]

/-- Unfolding of the sweep on a region that raises a generic exception. -/
theorem sweepLoop_cons_failed (c : Client) (backend : String → RegionOutcome)
    (mime : Option String) (full : Bool) (x : String) (rest : List String)
    (mk : KwArgs) (le : Option PyException) (m : String)
    (hbx : backend x = RegionOutcome.failed m) :
    sweepLoop c backend mime full (x :: rest) mk le
      = ⟨Event.bind x
          :: Event.invoke x (layerMime (popGenConfig mk c.default_generation_config).1 mime)
          :: (sweepLoop c backend mime full rest
                (popGenConfig mk c.default_generation_config).2
                (some (.generic m))).trace,
         (sweepLoop c backend mime full rest
            (popGenConfig mk c.default_generation_config).2
            (some (.generic m))).model_kwargs,
         (sweepLoop c backend mime full rest
            (popGenConfig mk c.default_generation_config).2
            (some (.generic m))).last_error,
         (sweepLoop c backend mime full rest
            (popGenConfig mk c.default_generation_config).2
            (some (.generic m))).success⟩ := by
  simp [sweepLoop, hbx]

/-! ## Helper lemmas: the region sweep -/

/-- When the regions split as `pre ++ r :: post`, every region of `pre`
throttles and `r` succeeds, the sweep returns `r`'s packaged result,
binds exactly the regions `pre ++ [r]` in order, performs
`pre.length + 1` invocations, and never sleeps. -/
theorem sweepLoop_prefix_success (c : Client) (backend : String → RegionOutcome)
    (mime : Option String) (full : Bool) (resp : Response) (pre : List String) :
    ∀ (r : String) (post : List String) (mk : KwArgs) (le : Option PyException),
    (∀ x ∈ pre, ∃ m, backend x = RegionOutcome.throttled m) →
    backend r = RegionOutcome.success resp →
    (sweepLoop c backend mime full (pre ++ r :: post) mk le).success
        = some (mkOutput full resp) ∧
    bindsOf (sweepLoop c backend mime full (pre ++ r :: post) mk le).trace
        = pre ++ [r] ∧
    countInvokes (sweepLoop c backend mime full (pre ++ r :: post) mk le).trace
        = pre.length + 1 ∧
    sleepsOf (sweepLoop c backend mime full (pre ++ r :: post) mk le).trace = [] := by
  induction pre with
  | nil =>
    intro r post mk le _ hs
    rw [List.nil_append,
      sweepLoop_cons_success c backend mime full r post mk le resp hs]
    refine ⟨rfl, ?_, ?_, ?_⟩ <;> simp [bindsOf, invokesOf, sleepsOf, countInvokes]
  | cons x xs ih =>
    intro r post mk le hth hs
    obtain ⟨m, hm⟩ := hth x (by simp)
    obtain ⟨h1, h2, h3, h4⟩ := ih r post (popGenConfig mk c.default_generation_config).2
      (some (.resourceExhausted m)) (fun y hy => hth y (by simp [hy])) hs
    rw [List.cons_append,
      sweepLoop_cons_throttled c backend mime full x (xs ++ r :: post) mk le m hm]
    refine ⟨h1, ?_, ?_, ?_⟩
    · rw [bindsOf_cons2, h2]
      simp
    · rw [countInvokes_cons2, h3]
      simp
    · rw [sleepsOf_cons2, h4]

/-- When every region of a non-empty list fails, the sweep returns no
success, reports the last region's exception as `last_error`, binds every
region in order, invokes once per region, and never sleeps. -/
theorem sweepLoop_allfail (c : Client) (backend : String → RegionOutcome)
    (mime : Option String) (full : Bool) (rs : List String) :
    ∀ (mk : KwArgs) (le : Option PyException),
    rs ≠ [] → (∀ x ∈ rs, (backend x).isFailure = true) →
    (sweepLoop c backend mime full rs mk le).success = none ∧
    (sweepLoop c backend mime full rs mk le).last_error
        = some ((backend (lastOf rs)).errOf) ∧
    bindsOf (sweepLoop c backend mime full rs mk le).trace = rs ∧
    countInvokes (sweepLoop c backend mime full rs mk le).trace = rs.length ∧
    sleepsOf (sweepLoop c backend mime full rs mk le).trace = [] := by
  induction rs with
  | nil => intro mk le hne _; exact absurd rfl hne
  | cons x rest ih =>
    intro mk le _ hf
    have hfx : (backend x).isFailure = true := hf x (by simp)
    cases hbx : backend x with
    | success resp => rw [hbx] at hfx; simp [RegionOutcome.isFailure] at hfx
    | throttled m =>
      rw [sweepLoop_cons_throttled c backend mime full x rest mk le m hbx]
      cases rest with
      | nil =>
        refine ⟨?_, ?_, ?_, ?_, ?_⟩ <;>
          simp [sweepLoop, lastOf, hbx, RegionOutcome.errOf,
            bindsOf, invokesOf, sleepsOf, countInvokes]
      | cons y ys =>
        obtain ⟨h1, h2, h3, h4, h5⟩ := ih (popGenConfig mk c.default_generation_config).2
          (some (.resourceExhausted m)) (by simp) (fun z hz => hf z (by simp [hz]))
        refine ⟨h1, ?_, ?_, ?_, ?_⟩
        · rw [h2]
          simp [lastOf]
        · rw [bindsOf_cons2, h3]
        · rw [countInvokes_cons2, h4]
          simp
        · rw [sleepsOf_cons2, h5]
    | failed m =>
      rw [sweepLoop_cons_failed c backend mime full x rest mk le m hbx]
      cases rest with
      | nil =>
        refine ⟨?_, ?_, ?_, ?_, ?_⟩ <;>
          simp [sweepLoop, lastOf, hbx, RegionOutcome.errOf,
            bindsOf, invokesOf, sleepsOf, countInvokes]
      | cons y ys =>
        obtain ⟨h1, h2, h3, h4, h5⟩ := ih (popGenConfig mk c.default_generation_config).2
          (some (.generic m)) (by simp) (fun z hz => hf z (by simp [hz]))
        refine ⟨h1, ?_, ?_, ?_, ?_⟩
        · rw [h2]
          simp [lastOf]
        · rw [bindsOf_cons2, h3]
        · rw [countInvokes_cons2, h4]
          simp
        · rw [sleepsOf_cons2, h5]

/-- Every success the sweep can return is the packaged output of some
provider response. -/
theorem sweepLoop_success_shape (c : Client) (backend : String → RegionOutcome)
    (mime : Option String) (full : Bool) (rs : List String) :
    ∀ (mk : KwArgs) (le : Option PyException) (pr : PyResult),
    (sweepLoop c backend mime full rs mk le).success = some pr →
    ∃ resp : Response, pr = mkOutput full resp := by
  induction rs with
  | nil => intro mk le pr h; simp [sweepLoop] at h
  | cons x xs ih =>
    intro mk le pr h
    cases hbx : backend x with
    | success resp =>
      rw [sweepLoop_cons_success c backend mime full x xs mk le resp hbx] at h
      simp at h
      exact ⟨resp, h.symm⟩
    | throttled m =>
      rw [sweepLoop_cons_throttled c backend mime full x xs mk le m hbx] at h
      exact ih _ _ _ h
    | failed m =>
      rw [sweepLoop_cons_failed c backend mime full x xs mk le m hbx] at h
      exact ih _ _ _ h

/-! ## Helper lemmas: one body attempt -/

/-- A body attempt under a prefix-throttle-then-success backend: returns
the winning region's result, binds `pre ++ [r]`, and leaves the caller's
kwargs untouched. -/
theorem generate_content_body_success (c : Client) (backend : String → RegionOutcome)
    (kwargs : KwArgs) (mime : Option String) (full : Bool)
    (pre : List String) (r : String) (post : List String) (resp : Response)
    (hreg : c.regions = pre ++ r :: post)
    (hth : ∀ x ∈ pre, ∃ m, backend x = RegionOutcome.throttled m)
    (hs : backend r = RegionOutcome.success resp) :
    (generate_content_body c backend none kwargs mime full).outcome
        = PyOutcome.ok (mkOutput full resp) ∧
    bindsOf (generate_content_body c backend none kwargs mime full).trace
        = pre ++ [r] ∧
    countInvokes (generate_content_body c backend none kwargs mime full).trace
        = pre.length + 1 ∧
    sleepsOf (generate_content_body c backend none kwargs mime full).trace = [] ∧
    (generate_content_body c backend none kwargs mime full).caller_kwargs = kwargs := by
  obtain ⟨s1, s2, s3, s4⟩ :=
    sweepLoop_prefix_success c backend mime full resp pre r post kwargs none hth hs
  have hbody : generate_content_body c backend none kwargs mime full
      = ⟨(sweepLoop c backend mime full (pre ++ r :: post) kwargs none).trace, kwargs,
          PyOutcome.ok (mkOutput full resp)⟩ := by
    simp only [generate_content_body, hreg]
    rw [s1]
  rw [hbody]
  exact ⟨rfl, s2, s3, s4, rfl⟩

/-- A body attempt when every region fails: raises the aggregated
exception whose message interpolates `str(last_error)` and whose cause is
the last region's exception; one bind and one invocation per region; the
caller's kwargs are untouched. -/
theorem generate_content_body_allfail (c : Client) (backend : String → RegionOutcome)
    (kwargs : KwArgs) (mime : Option String) (full : Bool)
    (hne : c.regions ≠ [])
    (hf : ∀ x ∈ c.regions, (backend x).isFailure = true) :
    (generate_content_body c backend none kwargs mime full).outcome
        = PyOutcome.raised (PyException.allRegionsFailed
            ("All regions failed. Last error: "
              ++ pyStrExc ((backend (lastOf c.regions)).errOf))
            ((backend (lastOf c.regions)).errOf)) ∧
    bindsOf (generate_content_body c backend none kwargs mime full).trace
        = c.regions ∧
    countInvokes (generate_content_body c backend none kwargs mime full).trace
        = c.regions.length ∧
    sleepsOf (generate_content_body c backend none kwargs mime full).trace = [] ∧
    (generate_content_body c backend none kwargs mime full).caller_kwargs = kwargs := by
  obtain ⟨s1, s2, s3, s4, s5⟩ :=
    sweepLoop_allfail c backend mime full c.regions kwargs none hne hf
  have hbody : generate_content_body c backend none kwargs mime full
      = ⟨(sweepLoop c backend mime full c.regions kwargs none).trace, kwargs,
          PyOutcome.raised (PyException.allRegionsFailed
            ("All regions failed. Last error: "
              ++ pyStrExc ((backend (lastOf c.regions)).errOf))
            ((backend (lastOf c.regions)).errOf))⟩ := by
    simp only [generate_content_body]
    rw [s1, s2]
  rw [hbody]
  exact ⟨rfl, s3, s4, s5, rfl⟩

/-- The caller's kwargs come back untouched from every body attempt. -/
theorem generate_content_body_caller_kwargs (c : Client)
    (backend : String → RegionOutcome) (lf : Option String) (kwargs : KwArgs)
    (mime : Option String) (full : Bool) :
    (generate_content_body c backend lf kwargs mime full).caller_kwargs = kwargs := by
  cases lf with
  | some m => rfl
  | none =>
    simp only [generate_content_body]
    cases hs : (sweepLoop c backend mime full c.regions kwargs none).success with
    | some r => rfl
    | none =>
      cases hle : (sweepLoop c backend mime full c.regions kwargs none).last_error with
      | some e => rfl
      | none => rfl

/-- Every ok result of the body is the packaged output of some response. -/
theorem generate_content_body_ok_shape (c : Client)
    (backend : String → RegionOutcome) (lf : Option String) (kwargs : KwArgs)
    (mime : Option String) (full : Bool) (pr : PyResult)
    (h : (generate_content_body c backend lf kwargs mime full).outcome
        = PyOutcome.ok pr) :
    ∃ resp : Response, pr = mkOutput full resp := by
  cases lf with
  | some m => simp [generate_content_body] at h
  | none =>
    simp only [generate_content_body] at h
    cases hs : (sweepLoop c backend mime full c.regions kwargs none).success with
    | some r =>
      rw [hs] at h
      simp at h
      rw [← h]
      exact sweepLoop_success_shape c backend mime full c.regions kwargs none r hs
    | none =>
      rw [hs] at h
      cases hle : (sweepLoop c backend mime full c.regions kwargs none).last_error with
      | some e => rw [hle] at h; simp at h
      | none => rw [hle] at h; simp at h

/-! ## Helper lemmas: the tenacity driver -/

/-- One failed, retried attempt: sleep `wait_exponential` and re-drive. -/
theorem retry_go_step (sr : PyException → Bool) (B : Nat → BodyResult)
    (attempt remaining : Nat) (e : PyException)
    (hB : (B attempt).outcome = PyOutcome.raised e) (hsr : sr e = true) :
    retry_go sr B attempt (remaining + 1)
      = ⟨(B attempt).trace
          ++ Event.sleep (wait_exponential_val 1 2 10 attempt)
            :: (retry_go sr B (attempt + 1) remaining).trace,
        (retry_go sr B (attempt + 1) remaining).attempts + 1,
        (retry_go sr B (attempt + 1) remaining).caller_kwargs,
        (retry_go sr B (attempt + 1) remaining).result⟩ := by
  simp [retry_go, hB, hsr]

/-- The stop condition met: tenacity raises `RetryError` from the last
attempt's exception. -/
theorem retry_go_last (sr : PyException → Bool) (B : Nat → BodyResult)
    (attempt : Nat) (e : PyException)
    (hB : (B attempt).outcome = PyOutcome.raised e) (hsr : sr e = true) :
    retry_go sr B attempt 0
      = ⟨(B attempt).trace, 1, (B attempt).caller_kwargs,
          PyOutcome.raised (PyException.retryError e)⟩ := by
  simp [retry_go, hB, hsr]

/-- A first attempt that returns ends the call with one attempt. -/
theorem retry_go_first_ok (sr : PyException → Bool) (B : Nat → BodyResult)
    (r : PyResult) (h : (B 1).outcome = PyOutcome.ok r) :
    retry_go sr B 1 2 = ⟨(B 1).trace, 1, (B 1).caller_kwargs, PyOutcome.ok r⟩ := by
  show retry_go sr B 1 (1 + 1) = _
  simp [retry_go, h]

/-- Full evaluation of the three-attempt driver when every attempt
raises a retryable exception. -/
theorem retry_go_eval3 (sr : PyException → Bool) (B : Nat → BodyResult)
    (e1 e2 e3 : PyException)
    (h1 : (B 1).outcome = PyOutcome.raised e1) (hs1 : sr e1 = true)
    (h2 : (B 2).outcome = PyOutcome.raised e2) (hs2 : sr e2 = true)
    (h3 : (B 3).outcome = PyOutcome.raised e3) (hs3 : sr e3 = true) :
    retry_go sr B 1 2
      = ⟨(B 1).trace ++ Event.sleep (wait_exponential_val 1 2 10 1)
          :: ((B 2).trace ++ Event.sleep (wait_exponential_val 1 2 10 2)
            :: (B 3).trace),
        3, (B 3).caller_kwargs,
        PyOutcome.raised (PyException.retryError e3)⟩ := by
  have t3 := retry_go_last sr B 3 e3 h3 hs3
  have t2 : retry_go sr B 2 1
      = ⟨(B 2).trace ++ Event.sleep (wait_exponential_val 1 2 10 2) :: (B 3).trace,
          2, (B 3).caller_kwargs, PyOutcome.raised (PyException.retryError e3)⟩ := by
    show retry_go sr B 2 (0 + 1) = _
    simp [retry_go_step sr B 2 0 e2 h2 hs2, t3]
  show retry_go sr B 1 (1 + 1) = _
  simp [retry_go_step sr B 1 1 e1 h1 hs1, t2]

/-- The caller's kwargs survive the whole driver untouched. -/
theorem retry_go_caller_kwargs (sr : PyException → Bool) (B : Nat → BodyResult)
    (kw : KwArgs) (hB : ∀ n, (B n).caller_kwargs = kw) :
    ∀ (remaining attempt : Nat),
    (retry_go sr B attempt remaining).caller_kwargs = kw := by
  intro remaining
  induction remaining with
  | zero =>
    intro attempt
    cases hout : (B attempt).outcome with
    | ok r => simp [retry_go, hout, hB]
    | raised e => by_cases hsr : sr e <;> simp [retry_go, hout, hsr, hB]
  | succ n ih =>
    intro attempt
    cases hout : (B attempt).outcome with
    | ok r => simp [retry_go, hout, hB]
    | raised e => by_cases hsr : sr e <;> simp [retry_go, hout, hsr, hB, ih]

/-- Every ok result of the driver comes from some body attempt. -/
theorem retry_go_ok_shape (sr : PyException → Bool) (B : Nat → BodyResult) :
    ∀ (remaining attempt : Nat) (pr : PyResult),
    (retry_go sr B attempt remaining).result = PyOutcome.ok pr →
    ∃ n, (B n).outcome = PyOutcome.ok pr := by
  intro remaining
  induction remaining with
  | zero =>
    intro attempt pr h
    cases hout : (B attempt).outcome with
    | ok r =>
      simp [retry_go, hout] at h
      exact ⟨attempt, by rw [hout, h]⟩
    | raised e => by_cases hsr : sr e <;> simp [retry_go, hout, hsr] at h
  | succ n ih =>
    intro attempt pr h
    cases hout : (B attempt).outcome with
    | ok r =>
      simp [retry_go, hout] at h
      exact ⟨attempt, by rw [hout, h]⟩
    | raised e =>
      by_cases hsr : sr e
      · simp [retry_go, hout, hsr] at h
        exact ih _ _ h
      · simp [retry_go, hout, hsr] at h

/-- Full behavior of the decorated call when every region of every sweep
fails: 3 attempts, 3 × region-count invocations, the two
`wait_exponential` pauses, and a terminal `RetryError` wrapping the third
sweep's aggregated exception. -/
theorem generate_content_allfail (c : Client) (backend : Nat → String → RegionOutcome)
    (kwargs : KwArgs) (mime : Option String) (full : Bool)
    (hne : c.regions ≠ [])
    (hf : ∀ n x, x ∈ c.regions → (backend n x).isFailure = true) :
    (generate_content c backend none kwargs mime full).attempts = 3 ∧
    countInvokes (generate_content c backend none kwargs mime full).trace
        = 3 * c.regions.length ∧
    sleepsOf (generate_content c backend none kwargs mime full).trace
        = [wait_exponential_val 1 2 10 1, wait_exponential_val 1 2 10 2] ∧
    (generate_content c backend none kwargs mime full).result
        = PyOutcome.raised (PyException.retryError (PyException.allRegionsFailed
            ("All regions failed. Last error: "
              ++ pyStrExc ((backend 3 (lastOf c.regions)).errOf))
            ((backend 3 (lastOf c.regions)).errOf))) := by
  obtain ⟨o1, b1, i1, s1, k1⟩ :=
    generate_content_body_allfail c (backend 1) kwargs mime full hne (hf 1)
  obtain ⟨o2, b2, i2, s2, k2⟩ :=
    generate_content_body_allfail c (backend 2) kwargs mime full hne (hf 2)
  obtain ⟨o3, b3, i3, s3, k3⟩ :=
    generate_content_body_allfail c (backend 3) kwargs mime full hne (hf 3)
  have heval := retry_go_eval3 tenacity_retry_on
    (genBody c backend none kwargs mime full) _ _ _ o1 rfl o2 rfl o3 rfl
  have hgc : generate_content c backend none kwargs mime full
      = retry_go tenacity_retry_on (genBody c backend none kwargs mime full) 1 2 := rfl
  rw [hgc, heval]
  refine ⟨rfl, ?_, ?_, rfl⟩
  · show countInvokes ((genBody c backend none kwargs mime full 1).trace ++ _) = _
    simp only [genBody]
    rw [countInvokes_append, countInvokes_sleep_cons, countInvokes_append,
      countInvokes_sleep_cons, i1, i2, i3]
    ring
  · show sleepsOf ((genBody c backend none kwargs mime full 1).trace ++ _) = _
    simp only [genBody]
    rw [sleepsOf_append, sleepsOf_sleep_cons, sleepsOf_append,
      sleepsOf_sleep_cons, s1, s2, s3]
    rfl

/-- C1: for every call where the region list splits as `pre ++ r :: post`
(so `k = pre.length`), each region of `pre` fails with the throttling
`ResourceExhausted` error and `r` succeeds with response `resp`, the call
returns `r`'s packaged response on the first attempt, and exactly `k + 1`
region bindings occur, in the fixed priority order; in particular, with
`pre = []` no region beyond the first is ever bound or invoked. -/
theorem claim1_failover_priority_order (p : String)
    (backend : Nat → String → RegionOutcome)
    (pre : List String) (r : String) (post : List String) (resp : Response)
    (kwargs : KwArgs) (mime : Option String) (full : Bool)
    (hsplit : gemini_regions = pre ++ r :: post)
    (hth : ∀ x ∈ pre, ∃ m, backend 1 x = RegionOutcome.throttled m)
    (hs : backend 1 r = RegionOutcome.success resp) :
    (generate_content (mkGeminiClient p) backend none kwargs mime full).result
        = PyOutcome.ok (mkOutput full resp) ∧
    bindsOf (generate_content (mkGeminiClient p) backend none kwargs mime full).trace
        = pre ++ [r] ∧
    countInvokes
        (generate_content (mkGeminiClient p) backend none kwargs mime full).trace
        = pre.length + 1 ∧
    (generate_content (mkGeminiClient p) backend none kwargs mime full).attempts
        = 1 := by
  have hreg : (mkGeminiClient p).regions = pre ++ r :: post := hsplit
  obtain ⟨o1, b1, i1, s1, k1⟩ := generate_content_body_success (mkGeminiClient p)
    (backend 1) kwargs mime full pre r post resp hreg hth hs
  have hgc : generate_content (mkGeminiClient p) backend none kwargs mime full
      = retry_go tenacity_retry_on
          (genBody (mkGeminiClient p) backend none kwargs mime full) 1 2 := rfl
  rw [hgc, retry_go_first_ok tenacity_retry_on _ (mkOutput full resp) o1]
  exact ⟨rfl, b1, i1, rfl⟩

/-- Witness for C1: first region throttled, second succeeds: the call
returns the second region's response after exactly two binds in priority
order, in one attempt. -/
theorem claim1_witness :
    (generate_content (mkGeminiClient "test-proj") throttleFirstBackend none emptyKw
        none true).result = PyOutcome.ok (mkOutput true respStop) ∧
    bindsOf (generate_content (mkGeminiClient "test-proj") throttleFirstBackend none
        emptyKw none true).trace = ["us-east5", "northamerica-northeast1"] ∧
    countInvokes (generate_content (mkGeminiClient "test-proj") throttleFirstBackend
        none emptyKw none true).trace = 2 ∧
    (generate_content (mkGeminiClient "test-proj") throttleFirstBackend none emptyKw
        none true).attempts = 1 := by
  have hth : ∀ x ∈ ["us-east5"], ∃ m,
      throttleFirstBackend 1 x = RegionOutcome.throttled m := by
    intro x hx
    simp only [List.mem_singleton] at hx
    subst hx
    exact ⟨"quota exceeded", by decide⟩
  have h := claim1_failover_priority_order "test-proj" throttleFirstBackend
    ["us-east5"] "northamerica-northeast1"
    ["europe-west2", "europe-west3", "asia-northeast1", "asia-south1",
      "southamerica-east1", "australia-southeast1"] respStop emptyKw none true
    (by decide) hth (by decide)
  simpa using h

/-- C2 counterexample: with every region of every sweep raising a generic
`boom` error, the exception the caller receives is tenacity's
`RetryError`, whose direct cause is the aggregated all-regions exception
— not the last region's underlying error itself, contrary to the claim
as stated. -/
theorem claim2_counterexample :
    (generate_content (mkGeminiClient "test-proj") allFailBackend none emptyKw
        none false).result
      = PyOutcome.raised (PyException.retryError (PyException.allRegionsFailed
          "All regions failed. Last error: boom" (PyException.generic "boom"))) ∧
    pyCause (PyException.retryError (PyException.allRegionsFailed
          "All regions failed. Last error: boom" (PyException.generic "boom")))
      ≠ some (PyException.generic "boom") := by
  constructor
  · decide
  · decide

/-- C2 amended: when every region fails on every sweep, the sweep-level
raise (lines 286-294) is a single exception whose cause is the last
region's underlying error and whose message contains that error's text;
after the outer retry budget the caller receives tenacity's `RetryError`
whose cause is that sweep exception (so the last underlying error is the
cause of the cause); the caller never receives a list of per-region
failures. -/
theorem claim2_amended_terminal_exception (p : String)
    (backend : Nat → String → RegionOutcome) (kwargs : KwArgs)
    (mime : Option String) (full : Bool)
    (hf : ∀ n x, x ∈ gemini_regions → (backend n x).isFailure = true) :
    (generate_content (mkGeminiClient p) backend none kwargs mime full).result
        = PyOutcome.raised (PyException.retryError (PyException.allRegionsFailed
            ("All regions failed. Last error: "
              ++ pyStrExc ((backend 3 (lastOf gemini_regions)).errOf))
            ((backend 3 (lastOf gemini_regions)).errOf))) ∧
    strHasSub
        ("All regions failed. Last error: "
          ++ pyStrExc ((backend 3 (lastOf gemini_regions)).errOf))
        (pyStrExc ((backend 3 (lastOf gemini_regions)).errOf)) = true ∧
    pyCause (PyException.allRegionsFailed
        ("All regions failed. Last error: "
          ++ pyStrExc ((backend 3 (lastOf gemini_regions)).errOf))
        ((backend 3 (lastOf gemini_regions)).errOf))
      = some ((backend 3 (lastOf gemini_regions)).errOf) := by
  obtain ⟨ha, hi, hsl, hres⟩ := generate_content_allfail (mkGeminiClient p) backend
    kwargs mime full (show gemini_regions ≠ [] by decide) hf
  exact ⟨hres, strHasSub_append _ _, rfl⟩

/-- Witness for the amended C2 at the concrete always-`boom` backend. -/
theorem claim2_amended_witness :
    (generate_content (mkGeminiClient "test-proj") allFailBackend none emptyKw
        none false).result
      = PyOutcome.raised (PyException.retryError (PyException.allRegionsFailed
          ("All regions failed. Last error: "
            ++ pyStrExc ((allFailBackend 3 (lastOf gemini_regions)).errOf))
          ((allFailBackend 3 (lastOf gemini_regions)).errOf))) ∧
    strHasSub
        ("All regions failed. Last error: "
          ++ pyStrExc ((allFailBackend 3 (lastOf gemini_regions)).errOf))
        (pyStrExc ((allFailBackend 3 (lastOf gemini_regions)).errOf)) = true ∧
    pyCause (PyException.allRegionsFailed
        ("All regions failed. Last error: "
          ++ pyStrExc ((allFailBackend 3 (lastOf gemini_regions)).errOf))
        ((allFailBackend 3 (lastOf gemini_regions)).errOf))
      = some ((allFailBackend 3 (lastOf gemini_regions)).errOf) :=
  claim2_amended_terminal_exception "test-proj" allFailBackend emptyKw none false
    (fun _ _ _ => rfl)

/-- C3: when all regions throw on every sweep, the outer wrapper performs
exactly 3 full region sweeps — 3 × region-count invocation attempts —
before raising; the backoff delays between consecutive sweeps are the
`wait_exponential(multiplier=1, min=2, max=10)` values, concretely
`[2, 4]`: non-decreasing, with base delay 2 and cap 10; the final sweep's
exception propagates as the cause of the raised `RetryError`. -/
theorem claim3_three_sweeps_with_backoff (p : String)
    (backend : Nat → String → RegionOutcome) (kwargs : KwArgs)
    (mime : Option String) (full : Bool)
    (hf : ∀ n x, x ∈ gemini_regions → (backend n x).isFailure = true) :
    (generate_content (mkGeminiClient p) backend none kwargs mime full).attempts
        = 3 ∧
    countInvokes
        (generate_content (mkGeminiClient p) backend none kwargs mime full).trace
        = 3 * gemini_regions.length ∧
    sleepsOf
        (generate_content (mkGeminiClient p) backend none kwargs mime full).trace
        = [wait_exponential_val 1 2 10 1, wait_exponential_val 1 2 10 2] ∧
    sleepsOf
        (generate_content (mkGeminiClient p) backend none kwargs mime full).trace
        = [2, 4] ∧
    List.Chain' (fun a b => a ≤ b)
        (sleepsOf
          (generate_content (mkGeminiClient p) backend none kwargs mime full).trace) ∧
    (∀ d ∈ sleepsOf
        (generate_content (mkGeminiClient p) backend none kwargs mime full).trace,
      2 ≤ d ∧ d ≤ 10) ∧
    (∃ e : PyException,
      (generate_content (mkGeminiClient p) backend none kwargs mime full).result
        = PyOutcome.raised (PyException.retryError e)) := by
  obtain ⟨ha, hi, hsl, hres⟩ := generate_content_allfail (mkGeminiClient p) backend
    kwargs mime full (show gemini_regions ≠ [] by decide) hf
  have hsl24 : sleepsOf
      (generate_content (mkGeminiClient p) backend none kwargs mime full).trace
      = [2, 4] := by
    rw [hsl]
    decide
  refine ⟨ha, hi, hsl, hsl24, ?_, ?_, ⟨_, hres⟩⟩
  · rw [hsl24]
    exact List.chain'_cons.mpr ⟨by norm_num, List.chain'_singleton 4⟩
  · rw [hsl24]
    decide

/-- Witness for C3 at the concrete always-`boom` backend. -/
theorem claim3_witness :
    (generate_content (mkGeminiClient "test-proj") allFailBackend none emptyKw
        none false).attempts = 3 ∧
    countInvokes (generate_content (mkGeminiClient "test-proj") allFailBackend none
        emptyKw none false).trace = 24 ∧
    sleepsOf (generate_content (mkGeminiClient "test-proj") allFailBackend none
        emptyKw none false).trace = [2, 4] := by
  have h := claim3_three_sweeps_with_backoff "test-proj" allFailBackend emptyKw
    none false (fun _ _ _ => rfl)
  refine ⟨h.1, ?_, h.2.2.2.1⟩
  rw [h.2.1]
  decide

/-- C4 counterexample: the enum code `FINISH_REASON_UNSPECIFIED` and the
numeric fallback code `"0"` are two distinct keys of the static table
mapped to the same description, so the table's descriptions are not
pairwise distinct across codes as the claim states. -/
theorem claim4_counterexample :
    get_finish_reason_description (FinishReasonValue.enum FREnum.unspecified)
      = get_finish_reason_description (FinishReasonValue.str "0") ∧
    FinishReasonValue.enum FREnum.unspecified ≠ FinishReasonValue.str "0" ∧
    FinishReasonValue.enum FREnum.unspecified ∈ reason_map.map Prod.fst ∧
    FinishReasonValue.str "0" ∈ reason_map.map Prod.fst := by
  decide

/-- C4 amended: the normalizer is total by construction; every
description in the static table is non-empty; the keys are pairwise
distinct; descriptions are pairwise distinct within the enum-keyed
entries and within the string-keyed entries (an enum-keyed entry may
share its description with a numeric-string fallback entry); every code
absent from the table comes back unchanged in its Python string form. -/
theorem claim4_amended_normalization_table :
    (∀ p ∈ reason_map, p.2 ≠ "") ∧
    List.Pairwise (fun p q => p.1 ≠ q.1) reason_map ∧
    List.Pairwise (fun p q => p.2 ≠ q.2) (reason_map.filter isEnumKeyed) ∧
    List.Pairwise (fun p q => p.2 ≠ q.2) (reason_map.filter isStrKeyed) ∧
    (∀ s : String, assocLookup (FinishReasonValue.str s) reason_map = none →
      get_finish_reason_description (FinishReasonValue.str s) = s) ∧
    (∀ e : FREnum, assocLookup (FinishReasonValue.enum e) reason_map = none →
      get_finish_reason_description (FinishReasonValue.enum e)
        = pyStrFR (FinishReasonValue.enum e)) ∧
    get_finish_reason_description FinishReasonValue.noneV
        = pyStrFR FinishReasonValue.noneV := by
  refine ⟨by decide, by decide, by decide, by decide, ?_, ?_, by decide⟩
  · intro s h
    simp only [get_finish_reason_description]
    rw [h]
  · intro e h
    simp only [get_finish_reason_description]
    rw [h]

/-- Witness for the amended C4: a brand-new string code and an enum
member missing from the table both fall back to their raw string form. -/
theorem claim4_amended_witness :
    get_finish_reason_description (FinishReasonValue.str "BRAND_NEW_CODE")
      = "BRAND_NEW_CODE" ∧
    get_finish_reason_description (FinishReasonValue.enum FREnum.blocklist)
      = pyStrFR (FinishReasonValue.enum FREnum.blocklist) :=
  ⟨claim4_amended_normalization_table.2.2.2.2.1 "BRAND_NEW_CODE" (by decide),
   claim4_amended_normalization_table.2.2.2.2.2.1 FREnum.blocklist (by decide)⟩

/-- C5 counterexample: with an empty (falsy) finish description and no
metadata, the code computes `is_truncated = false`, yet the empty string
does not contain "completed normally", so the claimed equivalence fails
at this input. -/
theorem claim5_counterexample :
    ¬ (is_truncated_calc "" none = true ↔
        strHasSub (strLower "") "completed normally" = false) := by
  decide

/-- C5 amended: whenever the finish description is non-empty (truthy),
`is_truncated` is true exactly when the lower-cased description does not
contain "completed normally"; an empty description instead falls back to
the raw-metadata comparison against `"STOP"`, defaulting to false. -/
theorem claim5_amended_truncation (finish_reason : String)
    (md : Option ResponseMetadata) (h : finish_reason ≠ "") :
    is_truncated_calc finish_reason md = true ↔
      strHasSub (strLower finish_reason) "completed normally" = false := by
  simp [is_truncated_calc, h]

/-- Witness for the amended C5: a truncated description. -/
theorem claim5_witness :
    ("The model reached the token limit" ≠ "") ∧
    (is_truncated_calc "The model reached the token limit" none = true ↔
      strHasSub (strLower "The model reached the token limit")
        "completed normally" = false) :=
  ⟨by decide,
   claim5_amended_truncation "The model reached the token limit" none (by decide)⟩

/-- C6: constructing the client with a falsy (absent or empty) project id
argument and a falsy `GCP_PROJECT` environment value raises the
`ValueError` immediately at construction; the empty event list records
that no region binding or other backend activity has occurred, and the
constructor sits under no retry decorator, so the error is never
retried. -/
theorem claim6_missing_project_id (project_id env : Option String)
    (ha : pyTruthyOpt project_id = none) (hb : pyTruthyOpt env = none) :
    GeminiRegionClient_init project_id env
      = ([], InitOutcome.raised (PyException.valueError
          "Project ID must be provided or set in GCP_PROJECT environment variable")) := by
  simp [GeminiRegionClient_init, ha, hb]

/-- Witness for C6: no argument, no environment value. -/
theorem claim6_witness :
    GeminiRegionClient_init none none
      = ([], InitOutcome.raised (PyException.valueError
          "Project ID must be provided or set in GCP_PROJECT environment variable")) :=
  claim6_missing_project_id none none rfl rfl

/-- C7 counterexample: a pre-region-iteration error (the logging-sink
call at lines 174-179 raising before the loop starts) is retried by the
outer wrapper — three attempts with two backoff sleeps and no region
ever bound — and then surfaces wrapped in `RetryError`, contradicting
the claim that such an error is not retried and propagates immediately
on the first attempt. -/
theorem claim7_counterexample :
    (generate_content (mkGeminiClient "test-proj")
        (fun _ _ => RegionOutcome.success respStop) (some "malformed request")
        emptyKw none false).attempts = 3 ∧
    bindsOf (generate_content (mkGeminiClient "test-proj")
        (fun _ _ => RegionOutcome.success respStop) (some "malformed request")
        emptyKw none false).trace = [] ∧
    (generate_content (mkGeminiClient "test-proj")
        (fun _ _ => RegionOutcome.success respStop) (some "malformed request")
        emptyKw none false).trace = [Event.sleep 2, Event.sleep 4] ∧
    (generate_content (mkGeminiClient "test-proj")
        (fun _ _ => RegionOutcome.success respStop) (some "malformed request")
        emptyKw none false).result
      = PyOutcome.raised (PyException.retryError
          (PyException.generic "malformed request")) := by
  refine ⟨rfl, rfl, rfl, rfl⟩

/-- C7 amended: the decorator at line 155 carries no `retry=` filter, so
its retry predicate accepts every exception; an error raised before
region iteration begins is therefore retried with the same backoff and
3-attempt budget as the all-regions-exhausted failure, and after the
budget the caller receives tenacity's `RetryError` wrapping it, not an
immediate first-attempt propagation. -/
theorem claim7_amended_indiscriminate_retry (c : Client)
    (backend : Nat → String → RegionOutcome) (m : String) (kwargs : KwArgs)
    (mime : Option String) (full : Bool) :
    (∀ e : PyException, tenacity_retry_on e = true) ∧
    (generate_content c backend (some m) kwargs mime full).attempts = 3 ∧
    (generate_content c backend (some m) kwargs mime full).trace
        = [Event.sleep 2, Event.sleep 4] ∧
    (generate_content c backend (some m) kwargs mime full).result
        = PyOutcome.raised (PyException.retryError (PyException.generic m)) := by
  exact ⟨fun e => rfl, rfl, rfl, rfl⟩

/-- C8: evaluation of the code at the failing input.  The caller supplies
`callerConfig` and a forced MIME type; region 1 throttles, region 2
succeeds.  The trace shows region 1 invoked with the caller's config
(MIME layered on), but region 2 invoked with the client's default config
(MIME layered on): `model_kwargs.pop('generation_config', ...)` removed
the caller's config from the kwargs copy during the first region
attempt, so later regions of the same sweep fall back to the default. -/
theorem claim8_config_dropped_after_first_region :
    invokesOf (generate_content (mkGeminiClient "test-proj") throttleFirstBackend
        none callerKw (some "application/json") true).trace
      = [("us-east5",
            { callerConfig with response_mime_type := some "application/json" }),
         ("northamerica-northeast1",
            { default_generation_config with
                response_mime_type := some "application/json" })] ∧
    callerConfig ≠ default_generation_config := by
  constructor
  · decide
  · decide

/-- C9 counterexample: a provider response whose first candidate carries
the raw empty-string finish code yields a successful full result whose
`finish_reason` field is the empty string, so the field is not always a
non-empty string. -/
theorem claim9_counterexample :
    (generate_content (mkGeminiClient "test-proj")
        (fun _ _ => RegionOutcome.success respEmptyReason) none emptyKw none
        true).result
      = PyOutcome.ok (PyResult.full (buildFullResult respEmptyReason)) ∧
    (buildFullResult respEmptyReason).finish_reason = "" ∧
    (buildFullResult respEmptyReason).text = "ok" := by
  refine ⟨?_, rfl, rfl⟩
  decide

/-- C9 amended: every full result a successful call returns is the
packaged form of some provider response with `text` taken verbatim from
it; its `finish_reason` is exactly the normalized description of the
stored raw code, and it is non-empty whenever the raw code is not the
provider's empty-string code; an unspecified code maps to the explicit
description "The finish reason is unspecified" rather than blank. -/
theorem claim9_amended_success_invariant (c : Client)
    (backend : Nat → String → RegionOutcome) (lf : Option String)
    (kwargs : KwArgs) (mime : Option String) (r : GenResult)
    (h : (generate_content c backend lf kwargs mime true).result
        = PyOutcome.ok (PyResult.full r)) :
    (∃ resp : Response, r = buildFullResult resp ∧ r.text = resp.text) ∧
    r.finish_reason = get_finish_reason_description r.finish_reason_raw ∧
    (r.finish_reason_raw ≠ FinishReasonValue.str "" → r.finish_reason ≠ "") ∧
    get_finish_reason_description (FinishReasonValue.enum FREnum.unspecified)
      = "The finish reason is unspecified" := by
  obtain ⟨n, hn⟩ := retry_go_ok_shape tenacity_retry_on
    (genBody c backend lf kwargs mime true) 2 1 (PyResult.full r) h
  obtain ⟨resp, hresp⟩ := generate_content_body_ok_shape c (backend n) lf kwargs
    mime true (PyResult.full r) hn
  have hr : r = buildFullResult resp := by
    simpa [mkOutput] using hresp
  subst hr
  refine ⟨⟨resp, rfl, rfl⟩, rfl, ?_, rfl⟩
  intro hraw
  exact get_finish_reason_description_ne_empty _ hraw

/-- Witness for the amended C9 at a concrete successful call. -/
theorem claim9_amended_witness :
    (∃ resp : Response, buildFullResult respStop = buildFullResult resp ∧
        (buildFullResult respStop).text = resp.text) ∧
    (buildFullResult respStop).finish_reason
      = get_finish_reason_description (buildFullResult respStop).finish_reason_raw ∧
    ((buildFullResult respStop).finish_reason_raw ≠ FinishReasonValue.str "" →
        (buildFullResult respStop).finish_reason ≠ "") ∧
    get_finish_reason_description (FinishReasonValue.enum FREnum.unspecified)
      = "The finish reason is unspecified" :=
  claim9_amended_success_invariant (mkGeminiClient "test-proj")
    (fun _ _ => RegionOutcome.success respStop) none emptyKw none
    (buildFullResult respStop) (by decide)

/-- C10: for every call, the caller's keyword-argument dictionary comes
back unchanged: line 182 copies it before the loop and
`pop('generation_config', ...)` acts only on that copy.  The client value
itself (`regions`, `safety_settings`, `default_generation_config`) is an
input the call never rebinds: forcing a MIME type builds a new config
record from the merged one rather than updating the default in place. -/
theorem claim10_caller_state_never_mutated (c : Client)
    (backend : Nat → String → RegionOutcome) (lf : Option String)
    (kwargs : KwArgs) (mime : Option String) (full : Bool) :
    (generate_content c backend lf kwargs mime full).caller_kwargs = kwargs :=
  retry_go_caller_kwargs tenacity_retry_on (genBody c backend lf kwargs mime full)
    kwargs
    (fun n => generate_content_body_caller_kwargs c (backend n) lf kwargs mime full)
    2 1
